import Mathlib

/-!
Verification of the parameter acquisition, validation and derivation layer
of the vtracer command-line application (`src/cmdapp/src/config.rs`).

The Rust code is shallowly embedded:
* `PathBuf` is modelled as `String`;
* `usize` as `Nat` (parses reject values at or above `2 ^ 64`),
  `i32` as `Int` (parses reject values outside `[-2 ^ 31, 2 ^ 31)`),
  `u32` as `Nat` (parses reject values at or above `2 ^ 32`);
* `f64` values are modelled as exact rationals (`ℚ`): the decimal-literal
  subset of Rust's float grammar is parsed to its exact value, with no
  rounding, and the derived radian thresholds live in `ℝ`;
* each `panic!` / `expect` / `unwrap` failure becomes the `Except.error`
  carrying the corresponding message string;
* clap argument matching is modelled by an `Args` record of optional raw
  string values, one per recognized key.
-/

/-- The three ColorMode variants of the source. -/
inductive ColorMode where
  | Color
  | Binary
deriving DecidableEq, Repr

/-- The two Hierarchical variants of the source. -/
inductive Hierarchical where
  | Stacked
  | Cutout
deriving DecidableEq, Repr

/-- PathSimplifyMode from the visioncortex crate: Polygon, Spline, None. -/
inductive PathSimplifyMode where
  | Polygon
  | Spline
  | None
deriving DecidableEq, Repr

/-- The three Preset variants of the source. -/
inductive Preset where
  | Bw
  | Poster
  | Photo
deriving DecidableEq, Repr

/-- User-facing configuration, mirroring `struct Config` field by field. -/
structure Config where
  input_path : String
  output_path : String
  color_mode : ColorMode
  hierarchical : Hierarchical
  filter_speckle : Nat
  color_precision : Int
  layer_difference : Int
  mode : PathSimplifyMode
  corner_threshold : Int
  length_threshold : ℚ
  max_iterations : Nat
  splice_threshold : Int
  path_precision : Option Nat
deriving DecidableEq, Repr

/-- Engine-facing configuration, mirroring `struct ConverterConfig`.
The two angle thresholds are `f64` radians in the source, modelled in `ℝ`. -/
structure ConverterConfig where
  input_path : String
  output_path : String
  color_mode : ColorMode
  hierarchical : Hierarchical
  filter_speckle_area : Nat
  color_precision_loss : Int
  layer_difference : Int
  mode : PathSimplifyMode
  corner_threshold : ℝ
  length_threshold : ℚ
  max_iterations : Nat
  splice_threshold : ℝ
  path_precision : Option Nat

/-- Default configuration, mirroring `impl Default for Config`
(`PathBuf::default()` is the empty path). -/
def Config.default : Config where
  input_path := ""
  output_path := ""
  color_mode := ColorMode.Color
  hierarchical := Hierarchical.Stacked
  mode := PathSimplifyMode.Spline
  filter_speckle := 4
  color_precision := 6
  layer_difference := 16
  corner_threshold := 60
  length_threshold := 4
  splice_threshold := 45
  max_iterations := 10
  path_precision := some 8

/-- ASCII lowercasing, mirroring Rust `str::to_ascii_lowercase`
(`Char.toLower` only maps basic latin letters, exactly as Rust does). -/
def asciiLower (s : String) : String :=
  String.mk (s.data.map Char.toLower)

/-- Whitespace trimming, mirroring Rust `str::trim` on the ASCII
whitespace that can occur in command-line values. -/
def rustTrim (s : String) : String :=
  String.mk (((s.data.dropWhile Char.isWhitespace).reverse.dropWhile
    Char.isWhitespace).reverse)

/-- ColorMode::from_str: lowercase the token and match "color" / "binary". -/
def ColorMode.fromStr (s : String) : Except String ColorMode :=
  let t := asciiLower s
  if t = "color" then Except.ok ColorMode.Color
  else if t = "binary" then Except.ok ColorMode.Binary
  else Except.error ("unknown ColorMode " ++ s)

/-- Hierarchical::from_str: lowercase the token and match "stacked" / "cutout". -/
def Hierarchical.fromStr (s : String) : Except String Hierarchical :=
  let t := asciiLower s
  if t = "stacked" then Except.ok Hierarchical.Stacked
  else if t = "cutout" then Except.ok Hierarchical.Cutout
  else Except.error ("unknown Hierarchical " ++ s)

/-- Preset::from_str: exact (case-sensitive) match of "bw" / "poster" / "photo". -/
def Preset.fromStr (s : String) : Except String Preset :=
  if s = "bw" then Except.ok Preset.Bw
  else if s = "poster" then Except.ok Preset.Poster
  else if s = "photo" then Except.ok Preset.Photo
  else Except.error ("unknown Preset " ++ s)

/-- path_simplify_mode_from_str: exact match of "polygon" / "spline" / "none",
panicking on anything else. -/
def path_simplify_mode_from_str (s : String) : Except String PathSimplifyMode :=
  if s = "polygon" then Except.ok PathSimplifyMode.Polygon
  else if s = "spline" then Except.ok PathSimplifyMode.Spline
  else if s = "none" then Except.ok PathSimplifyMode.None
  else Except.error ("unknown PathSimplifyMode " ++ s)

/-- Value of a list of decimal digit characters, most significant first. -/
def digitsToNat (cs : List Char) : Nat :=
  cs.foldl (fun acc c => 10 * acc + (c.toNat - 48)) 0

/-- Rust `str::parse::<u64-sized usize>`: optional leading plus sign, then one
or more ASCII digits, rejecting values that overflow 64 bits. -/
def parseUsize (s : String) : Option Nat :=
  let cs := match s.data with
    | '+' :: rest => rest
    | cs => cs
  if cs ≠ [] ∧ cs.all Char.isDigit then
    let n := digitsToNat cs
    if n < 2 ^ 64 then some n else none
  else none

/-- Rust `str::parse::<u32>`: optional leading plus sign, then one or more
ASCII digits, rejecting values that overflow 32 bits. -/
def parseU32 (s : String) : Option Nat :=
  let cs := match s.data with
    | '+' :: rest => rest
    | cs => cs
  if cs ≠ [] ∧ cs.all Char.isDigit then
    let n := digitsToNat cs
    if n < 2 ^ 32 then some n else none
  else none

/-- Rust `str::parse::<i32>`: optional sign, then one or more ASCII digits,
rejecting values outside the 32-bit two's-complement range. -/
def parseI32 (s : String) : Option Int :=
  let signAndDigits : Int × List Char := match s.data with
    | '-' :: rest => (-1, rest)
    | '+' :: rest => (1, rest)
    | cs => (1, cs)
  let sign := signAndDigits.1
  let cs := signAndDigits.2
  if cs ≠ [] ∧ cs.all Char.isDigit then
    let n : Int := sign * (digitsToNat cs : Int)
    if -(2 ^ 31) ≤ n ∧ n < 2 ^ 31 then some n else none
  else none

/-- Rust `str::parse::<f64>` restricted to plain decimal literals: optional
sign, digits, optionally a point and further digits. The value is kept as an
exact rational; exponent forms, `inf` and `NaN` are outside the model. -/
def parseF64 (s : String) : Option ℚ :=
  let signAndBody : ℚ × List Char := match s.data with
    | '-' :: rest => (-1, rest)
    | '+' :: rest => (1, rest)
    | cs => (1, cs)
  let sign := signAndBody.1
  let body := signAndBody.2
  let ip := body.takeWhile (fun c => c != '.')
  let rest := body.dropWhile (fun c => c != '.')
  match rest with
  | [] =>
    if ip ≠ [] ∧ ip.all Char.isDigit then
      some (sign * (digitsToNat ip : ℚ))
    else none
  | '.' :: fp =>
    if (ip ≠ [] ∨ fp ≠ []) ∧ ip.all Char.isDigit ∧ fp.all Char.isDigit then
      some (sign * ((digitsToNat ip : ℚ) +
        (digitsToNat fp : ℚ) / (10 : ℚ) ^ fp.length))
    else none
  | _ => none

/-- Fractional decimal digits of a rational in `[0, 1)`, fuelled. -/
def fracDigits : Nat → ℚ → List Char
  | 0, _ => []
  | fuel + 1, q =>
    if q = 0 then []
    else
      let q10 := q * 10
      let d := q10.floor
      Char.ofNat (48 + d.toNat) :: fracDigits fuel (q10 - (d : ℚ))

/-- Display of a non-negative rational in Rust `f64` `Display` style. -/
def fmtF64Abs (q : ℚ) : String :=
  let ipart := q.floor
  let fr := q - (ipart : ℚ)
  if fr = 0 then toString ipart.toNat
  else toString ipart.toNat ++ "." ++ String.mk (fracDigits 60 fr)

/-- Display of a rational in Rust `f64` `Display` style (used only to build
panic message strings). -/
def fmtF64 (q : ℚ) : String :=
  if q < 0 then "-" ++ fmtF64Abs (-q) else fmtF64Abs q

/-- Config::from_preset: each preset is one fixed, complete bundle. -/
def Config.from_preset (preset : Preset) (input_path output_path : String) :
    Config :=
  match preset with
  | Preset.Bw =>
    { input_path
      output_path
      color_mode := ColorMode.Binary
      hierarchical := Hierarchical.Stacked
      filter_speckle := 4
      color_precision := 6
      layer_difference := 16
      mode := PathSimplifyMode.Spline
      corner_threshold := 60
      length_threshold := 4
      max_iterations := 10
      splice_threshold := 45
      path_precision := some 8 }
  | Preset.Poster =>
    { input_path
      output_path
      color_mode := ColorMode.Color
      hierarchical := Hierarchical.Stacked
      filter_speckle := 4
      color_precision := 8
      layer_difference := 16
      mode := PathSimplifyMode.Spline
      corner_threshold := 60
      length_threshold := 4
      max_iterations := 10
      splice_threshold := 45
      path_precision := some 8 }
  | Preset.Photo =>
    { input_path
      output_path
      color_mode := ColorMode.Color
      hierarchical := Hierarchical.Stacked
      filter_speckle := 10
      color_precision := 8
      layer_difference := 48
      mode := PathSimplifyMode.Spline
      corner_threshold := 180
      length_threshold := 4
      max_iterations := 10
      splice_threshold := 45
      path_precision := some 8 }

/-- deg2rad from the source: `deg as f64 / 180.0 * PI`, over `ℝ`. -/
noncomputable def deg2rad (deg : Int) : ℝ :=
  (deg : ℝ) / 180 * Real.pi

/-- Config::into_converter_config: the pure derivation to the engine config. -/
noncomputable def Config.into_converter_config (self : Config) :
    ConverterConfig where
  input_path := self.input_path
  output_path := self.output_path
  color_mode := self.color_mode
  hierarchical := self.hierarchical
  filter_speckle_area := self.filter_speckle * self.filter_speckle
  color_precision_loss := 8 - self.color_precision
  layer_difference := self.layer_difference
  mode := self.mode
  corner_threshold := deg2rad self.corner_threshold
  length_threshold := self.length_threshold
  max_iterations := self.max_iterations
  splice_threshold := deg2rad self.splice_threshold
  path_precision := self.path_precision

/-- The clap matches: one optional raw string value per recognized key. -/
structure Args where
  input : Option String
  output : Option String
  color_mode : Option String
  hierarchical : Option String
  preset : Option String
  filter_speckle : Option String
  color_precision : Option String
  gradient_step : Option String
  corner_threshold : Option String
  segment_length : Option String
  splice_threshold : Option String
  mode : Option String
  path_precision : Option String
deriving Repr

/-- Args with every key absent, for building concrete invocations. -/
def Args.empty : Args where
  input := none
  output := none
  color_mode := none
  hierarchical := none
  preset := none
  filter_speckle := none
  color_precision := none
  gradient_step := none
  corner_threshold := none
  segment_length := none
  splice_threshold := none
  mode := none
  path_precision := none

/-- The preset block of from_args: replace the whole config by the preset
bundle (Preset::from_str(..).unwrap() propagates the unknown-preset error). -/
def applyPreset (a : Args) (config : Config) (input_path output_path : String) :
    Except String Config :=
  match a.preset with
  | none => Except.ok config
  | some value =>
    match Preset.fromStr value with
    | Except.ok preset =>
      Except.ok (Config.from_preset preset input_path output_path)
    | Except.error e => Except.error e

/-- The color_mode block of from_args: route exactly "bw" / "BW" (after trim)
to "binary" and everything else to "color", then ColorMode::from_str. -/
def applyColorMode (a : Args) (config : Config) : Except String Config :=
  match a.color_mode with
  | none => Except.ok config
  | some value =>
    match ColorMode.fromStr
        (if rustTrim value = "bw" ∨ rustTrim value = "BW"
         then "binary" else "color") with
    | Except.ok cm => Except.ok { config with color_mode := cm }
    | Except.error e => Except.error e

/-- The hierarchical block of from_args: Hierarchical::from_str on the raw
value (no trimming in the source), unwrap propagating the error. -/
def applyHierarchical (a : Args) (config : Config) : Except String Config :=
  match a.hierarchical with
  | none => Except.ok config
  | some value =>
    match Hierarchical.fromStr value with
    | Except.ok h => Except.ok { config with hierarchical := h }
    | Except.error e => Except.error e

/-- The mode block of from_args: trim, map "pixel" to "none", pass "polygon" /
"spline" through, panic on anything else, then path_simplify_mode_from_str. -/
def applyMode (a : Args) (config : Config) : Except String Config :=
  match a.mode with
  | none => Except.ok config
  | some value0 =>
    let value := rustTrim value0
    if value = "pixel" then
      match path_simplify_mode_from_str "none" with
      | Except.ok md => Except.ok { config with mode := md }
      | Except.error e => Except.error e
    else if value = "polygon" then
      match path_simplify_mode_from_str "polygon" with
      | Except.ok md => Except.ok { config with mode := md }
      | Except.error e => Except.error e
    else if value = "spline" then
      match path_simplify_mode_from_str "spline" with
      | Except.ok md => Except.ok { config with mode := md }
      | Except.error e => Except.error e
    else
      Except.error ("Parser Error: Curve fitting mode is invalid: " ++ value)

/-- The filter_speckle block of from_args: parse as usize, range [1,16]. -/
def applyFilterSpeckle (a : Args) (config : Config) : Except String Config :=
  match a.filter_speckle with
  | none => Except.ok config
  | some value =>
    match parseUsize (rustTrim value) with
    | some v =>
      if v < 1 ∨ v > 16 then
        Except.error ("Out of Range Error: Filter speckle is invalid at " ++
          toString v ++ ". It must be within [1,16].")
      else Except.ok { config with filter_speckle := v }
    | none =>
      Except.error ("Parser Error: Filter speckle is not a positive integer: "
        ++ value ++ ".")

/-- The color_precision block of from_args: parse as i32, range [1,8]. -/
def applyColorPrecision (a : Args) (config : Config) : Except String Config :=
  match a.color_precision with
  | none => Except.ok config
  | some value =>
    match parseI32 (rustTrim value) with
    | some v =>
      if v < 1 ∨ v > 8 then
        Except.error ("Out of Range Error: Color precision is invalid at " ++
          toString v ++ ". It must be within [1,8].")
      else Except.ok { config with color_precision := v }
    | none =>
      Except.error ("Parser Error: Color precision is not an integer: "
        ++ value ++ ".")

/-- The gradient_step block of from_args: parse as i32, range [0,255],
stored in layer_difference. -/
def applyGradientStep (a : Args) (config : Config) : Except String Config :=
  match a.gradient_step with
  | none => Except.ok config
  | some value =>
    match parseI32 (rustTrim value) with
    | some v =>
      if v < 0 ∨ v > 255 then
        Except.error ("Out of Range Error: Gradient step is invalid at " ++
          toString v ++ ". It must be within [0,255].")
      else Except.ok { config with layer_difference := v }
    | none =>
      Except.error ("Parser Error: Gradient step is not an integer: "
        ++ value ++ ".")

/-- The corner_threshold block of from_args: parse as i32, range [0,180]. -/
def applyCornerThreshold (a : Args) (config : Config) : Except String Config :=
  match a.corner_threshold with
  | none => Except.ok config
  | some value =>
    match parseI32 (rustTrim value) with
    | some v =>
      if v < 0 ∨ v > 180 then
        Except.error ("Out of Range Error: Corner threshold is invalid at " ++
          toString v ++ ". It must be within [0,180].")
      else Except.ok { config with corner_threshold := v }
    | none =>
      Except.error ("Parser Error: Corner threshold is not numeric: "
        ++ value ++ ".")

/-- The segment_length block of from_args: parse as f64, range [3.5,10]. -/
def applySegmentLength (a : Args) (config : Config) : Except String Config :=
  match a.segment_length with
  | none => Except.ok config
  | some value =>
    match parseF64 (rustTrim value) with
    | some v =>
      if v < (35 : ℚ) / 10 ∨ v > 10 then
        Except.error ("Out of Range Error: Segment length is invalid at " ++
          fmtF64 v ++ ". It must be within [3.5,10].")
      else Except.ok { config with length_threshold := v }
    | none =>
      Except.error ("Parser Error: Segment length is not numeric: "
        ++ value ++ ".")

/-- The splice_threshold block of from_args: parse as i32, range [0,180].
The panic messages of this block say "Segment length" in the source. -/
def applySpliceThreshold (a : Args) (config : Config) : Except String Config :=
  match a.splice_threshold with
  | none => Except.ok config
  | some value =>
    match parseI32 (rustTrim value) with
    | some v =>
      if v < 0 ∨ v > 180 then
        Except.error ("Out of Range Error: Segment length is invalid at " ++
          toString v ++ ". It must be within [0,180].")
      else Except.ok { config with splice_threshold := v }
    | none =>
      Except.error ("Parser Error: Segment length is not numeric: "
        ++ value ++ ".")

/-- The path_precision block of from_args: parse as u32, no range check,
stored as Some via `.ok()`. -/
def applyPathPrecision (a : Args) (config : Config) : Except String Config :=
  match a.path_precision with
  | none => Except.ok config
  | some value =>
    match parseU32 (rustTrim value) with
    | some v => Except.ok { config with path_precision := some v }
    | none =>
      Except.error ("Parser Error: Path precision is not an unsigned integer: "
        ++ value ++ ".")

/-- Config::from_args over the modelled clap matches, mirroring the source
block by block in source order. -/
def Config.from_args (a : Args) : Except String Config :=
  match a.input with
  | none =>
    Except.error "Input path is required, please specify it by --input or -i."
  | some input_path =>
  match a.output with
  | none =>
    Except.error "Output path is required, please specify it by --output or -o."
  | some output_path =>
    (applyPreset a Config.default input_path output_path).bind fun c0 =>
    let c1 := { c0 with input_path := input_path, output_path := output_path }
    (applyColorMode a c1).bind fun c2 =>
    (applyHierarchical a c2).bind fun c3 =>
    (applyMode a c3).bind fun c4 =>
    (applyFilterSpeckle a c4).bind fun c5 =>
    (applyColorPrecision a c5).bind fun c6 =>
    (applyGradientStep a c6).bind fun c7 =>
    (applyCornerThreshold a c7).bind fun c8 =>
    (applySegmentLength a c8).bind fun c9 =>
    (applySpliceThreshold a c9).bind fun c10 =>
    applyPathPrecision a c10

unseal Rat.mul Rat.inv Rat.add Rat.sub Rat.ofScientific

/-- Predicate: every numeric field of a Config lies in its validated range. -/
def validRanges (c : Config) : Prop :=
  1 ≤ c.filter_speckle ∧ c.filter_speckle ≤ 16 ∧
  1 ≤ c.color_precision ∧ c.color_precision ≤ 8 ∧
  0 ≤ c.layer_difference ∧ c.layer_difference ≤ 255 ∧
  0 ≤ c.corner_threshold ∧ c.corner_threshold ≤ 180 ∧
  (35 : ℚ) / 10 ≤ c.length_threshold ∧ c.length_threshold ≤ 10 ∧
  0 ≤ c.splice_threshold ∧ c.splice_threshold ≤ 180

instance (c : Config) : Decidable (validRanges c) := by
  unfold validRanges
  infer_instance

/-- Sample argument set carrying only the two required paths. -/
def argsBase : Args :=
  { Args.empty with input := some "in.png", output := some "out.svg" }

theorem cmFromStr_binary :
    ColorMode.fromStr "binary" = Except.ok ColorMode.Binary := rfl

theorem cmFromStr_color :
    ColorMode.fromStr "color" = Except.ok ColorMode.Color := rfl

theorem presetFromStr_photo :
    Preset.fromStr "photo" = Except.ok Preset.Photo := rfl

theorem char_toNat_ofNat_small (n : Nat) (h : n < 128) :
    (Char.ofNat n).toNat = n := by
  rw [Char.ofNat, dif_pos (Or.inl (by omega))]
  rfl

theorem toLower_idem (c : Char) :
    Char.toLower (Char.toLower c) = Char.toLower c := by
  unfold Char.toLower
  by_cases h : c.toNat ≥ 65 ∧ c.toNat ≤ 90
  · rw [if_pos h, if_neg]
    intro h2
    rw [char_toNat_ofNat_small (c.toNat + 32) (by omega)] at h2
    omega
  · rw [if_neg h, if_neg h]

theorem asciiLower_idem (s : String) :
    asciiLower (asciiLower s) = asciiLower s := by
  unfold asciiLower
  rw [show (String.mk (s.data.map Char.toLower)).data
      = s.data.map Char.toLower from rfl, List.map_map]
  congr 1
  exact List.map_congr_left fun c _ => toLower_idem c

/-- Evaluation of from_args when only the two paths and a hierarchical token
are supplied. -/
theorem hier_eval (i o t : String) :
    Config.from_args { Args.empty with
        input := some i, output := some o, hierarchical := some t }
      = match Hierarchical.fromStr t with
        | Except.ok h => Except.ok { Config.default with
            input_path := i, output_path := o, hierarchical := h }
        | Except.error e => Except.error e := by
  by_cases h1 : asciiLower t = "stacked"
  · simp only [Config.from_args, applyPreset, applyColorMode, applyHierarchical,
      applyMode, applyFilterSpeckle, applyColorPrecision, applyGradientStep,
      applyCornerThreshold, applySegmentLength, applySpliceThreshold,
      applyPathPrecision, Args.empty, Except.bind, Hierarchical.fromStr,
      h1, if_true, ite_true, if_pos]
  · by_cases h2 : asciiLower t = "cutout" <;>
      (simp only [Config.from_args, applyPreset, applyColorMode,
        applyHierarchical, applyMode, applyFilterSpeckle, applyColorPrecision,
        applyGradientStep, applyCornerThreshold, applySegmentLength,
        applySpliceThreshold, applyPathPrecision, Args.empty, Except.bind,
        Hierarchical.fromStr, h1, h2, if_false, ite_false, if_neg,
        not_false_iff]
       try rfl)

/-- Evaluation of from_args when only the two paths and a curve fitting mode
token are supplied. -/
theorem mode_eval (i o m : String) :
    Config.from_args { Args.empty with
        input := some i, output := some o, mode := some m }
      = (if rustTrim m = "pixel" then
          Except.ok { Config.default with
            input_path := i
            output_path := o
            mode := PathSimplifyMode.None }
        else if rustTrim m = "polygon" then
          Except.ok { Config.default with
            input_path := i
            output_path := o
            mode := PathSimplifyMode.Polygon }
        else if rustTrim m = "spline" then
          Except.ok { Config.default with
            input_path := i
            output_path := o
            mode := PathSimplifyMode.Spline }
        else Except.error
          ("Parser Error: Curve fitting mode is invalid: " ++ rustTrim m)) := by
  by_cases h1 : rustTrim m = "pixel" <;>
    by_cases h2 : rustTrim m = "polygon" <;>
    by_cases h3 : rustTrim m = "spline" <;>
    (simp only [Config.from_args, applyPreset, applyColorMode,
      applyHierarchical, applyMode, applyFilterSpeckle, applyColorPrecision,
      applyGradientStep, applyCornerThreshold, applySegmentLength,
      applySpliceThreshold, applyPathPrecision, Args.empty, Except.bind,
      path_simplify_mode_from_str, h1, h2, h3, if_true, ite_true, if_false,
      ite_false]
     try rfl)

theorem hierFromStr_toOption_lower (t : String) :
    (Hierarchical.fromStr (asciiLower t)).toOption
      = (Hierarchical.fromStr t).toOption := by
  unfold Hierarchical.fromStr
  rw [asciiLower_idem]
  by_cases h1 : asciiLower t = "stacked"
  · rw [if_pos h1, if_pos h1]
  · by_cases h2 : asciiLower t = "cutout" <;>
      simp only [if_neg h1, h2, if_true, ite_true, if_false, ite_false,
        Except.toOption]

theorem bind_eq_ok {α β : Type} {e : Except String α} {f : α → Except String β}
    {b : β} (h : e.bind f = Except.ok b) :
    ∃ x, e = Except.ok x ∧ f x = Except.ok b := by
  cases e with
  | ok x => exact ⟨x, rfl, h⟩
  | error e => exact absurd h (by simp [Except.bind])

theorem applyPreset_max {a : Args} {c c' : Config} {i o : String}
    (h : applyPreset a c i o = Except.ok c') (hc : c.max_iterations = 10) :
    c'.max_iterations = 10 := by
  unfold applyPreset at h
  cases hv : a.preset with
  | none => simp only [hv] at h; cases h; exact hc
  | some value =>
    simp only [hv] at h
    cases hp : Preset.fromStr value with
    | ok p =>
      simp only [hp] at h
      cases h
      cases p <;> rfl
    | error e => simp only [hp] at h; exact Except.noConfusion h

theorem applyColorMode_max {a : Args} {c c' : Config}
    (h : applyColorMode a c = Except.ok c') :
    c'.max_iterations = c.max_iterations := by
  unfold applyColorMode at h
  cases hv : a.color_mode with
  | none => simp only [hv] at h; cases h; rfl
  | some value =>
    simp only [hv] at h
    cases hp : ColorMode.fromStr
        (if rustTrim value = "bw" ∨ rustTrim value = "BW"
         then "binary" else "color") with
    | ok cm => simp only [hp] at h; cases h; rfl
    | error e => simp only [hp] at h; exact Except.noConfusion h

theorem applyHierarchical_max {a : Args} {c c' : Config}
    (h : applyHierarchical a c = Except.ok c') :
    c'.max_iterations = c.max_iterations := by
  unfold applyHierarchical at h
  cases hv : a.hierarchical with
  | none => simp only [hv] at h; cases h; rfl
  | some value =>
    simp only [hv] at h
    cases hp : Hierarchical.fromStr value with
    | ok hm => simp only [hp] at h; cases h; rfl
    | error e => simp only [hp] at h; exact Except.noConfusion h

theorem applyMode_max {a : Args} {c c' : Config}
    (h : applyMode a c = Except.ok c') :
    c'.max_iterations = c.max_iterations := by
  unfold applyMode at h
  cases hv : a.mode with
  | none => simp only [hv] at h; cases h; rfl
  | some value =>
    simp only [hv] at h
    by_cases h1 : rustTrim value = "pixel"
    · simp only [h1, if_true, ite_true, path_simplify_mode_from_str] at h
      cases h
      rfl
    · by_cases h2 : rustTrim value = "polygon"
      · simp only [h1, h2, if_true, ite_true, if_false, ite_false,
          path_simplify_mode_from_str] at h
        cases h
        rfl
      · by_cases h3 : rustTrim value = "spline"
        · simp only [h1, h2, h3, if_true, ite_true, if_false, ite_false,
            path_simplify_mode_from_str] at h
          cases h
          rfl
        · simp only [h1, h2, h3, if_false, ite_false] at h
          exact Except.noConfusion h

theorem applyFilterSpeckle_max {a : Args} {c c' : Config}
    (h : applyFilterSpeckle a c = Except.ok c') :
    c'.max_iterations = c.max_iterations := by
  unfold applyFilterSpeckle at h
  cases hv : a.filter_speckle with
  | none => simp only [hv] at h; cases h; rfl
  | some value =>
    simp only [hv] at h
    cases hp : parseUsize (rustTrim value) with
    | some v =>
      simp only [hp] at h
      by_cases hr : v < 1 ∨ v > 16
      · rw [if_pos hr] at h; exact Except.noConfusion h
      · rw [if_neg hr] at h; cases h; rfl
    | none => simp only [hp] at h; exact Except.noConfusion h

theorem applyColorPrecision_max {a : Args} {c c' : Config}
    (h : applyColorPrecision a c = Except.ok c') :
    c'.max_iterations = c.max_iterations := by
  unfold applyColorPrecision at h
  cases hv : a.color_precision with
  | none => simp only [hv] at h; cases h; rfl
  | some value =>
    simp only [hv] at h
    cases hp : parseI32 (rustTrim value) with
    | some v =>
      simp only [hp] at h
      by_cases hr : v < 1 ∨ v > 8
      · rw [if_pos hr] at h; exact Except.noConfusion h
      · rw [if_neg hr] at h; cases h; rfl
    | none => simp only [hp] at h; exact Except.noConfusion h

theorem applyGradientStep_max {a : Args} {c c' : Config}
    (h : applyGradientStep a c = Except.ok c') :
    c'.max_iterations = c.max_iterations := by
  unfold applyGradientStep at h
  cases hv : a.gradient_step with
  | none => simp only [hv] at h; cases h; rfl
  | some value =>
    simp only [hv] at h
    cases hp : parseI32 (rustTrim value) with
    | some v =>
      simp only [hp] at h
      by_cases hr : v < 0 ∨ v > 255
      · rw [if_pos hr] at h; exact Except.noConfusion h
      · rw [if_neg hr] at h; cases h; rfl
    | none => simp only [hp] at h; exact Except.noConfusion h

theorem applyCornerThreshold_max {a : Args} {c c' : Config}
    (h : applyCornerThreshold a c = Except.ok c') :
    c'.max_iterations = c.max_iterations := by
  unfold applyCornerThreshold at h
  cases hv : a.corner_threshold with
  | none => simp only [hv] at h; cases h; rfl
  | some value =>
    simp only [hv] at h
    cases hp : parseI32 (rustTrim value) with
    | some v =>
      simp only [hp] at h
      by_cases hr : v < 0 ∨ v > 180
      · rw [if_pos hr] at h; exact Except.noConfusion h
      · rw [if_neg hr] at h; cases h; rfl
    | none => simp only [hp] at h; exact Except.noConfusion h

theorem applySegmentLength_max {a : Args} {c c' : Config}
    (h : applySegmentLength a c = Except.ok c') :
    c'.max_iterations = c.max_iterations := by
  unfold applySegmentLength at h
  cases hv : a.segment_length with
  | none => simp only [hv] at h; cases h; rfl
  | some value =>
    simp only [hv] at h
    cases hp : parseF64 (rustTrim value) with
    | some v =>
      simp only [hp] at h
      by_cases hr : v < (35 : ℚ) / 10 ∨ v > 10
      · rw [if_pos hr] at h; exact Except.noConfusion h
      · rw [if_neg hr] at h; cases h; rfl
    | none => simp only [hp] at h; exact Except.noConfusion h

theorem applySpliceThreshold_max {a : Args} {c c' : Config}
    (h : applySpliceThreshold a c = Except.ok c') :
    c'.max_iterations = c.max_iterations := by
  unfold applySpliceThreshold at h
  cases hv : a.splice_threshold with
  | none => simp only [hv] at h; cases h; rfl
  | some value =>
    simp only [hv] at h
    cases hp : parseI32 (rustTrim value) with
    | some v =>
      simp only [hp] at h
      by_cases hr : v < 0 ∨ v > 180
      · rw [if_pos hr] at h; exact Except.noConfusion h
      · rw [if_neg hr] at h; cases h; rfl
    | none => simp only [hp] at h; exact Except.noConfusion h

theorem applyPathPrecision_max {a : Args} {c c' : Config}
    (h : applyPathPrecision a c = Except.ok c') :
    c'.max_iterations = c.max_iterations := by
  unfold applyPathPrecision at h
  cases hv : a.path_precision with
  | none => simp only [hv] at h; cases h; rfl
  | some value =>
    simp only [hv] at h
    cases hp : parseU32 (rustTrim value) with
    | some v => simp only [hp] at h; cases h; rfl
    | none => simp only [hp] at h; exact Except.noConfusion h

/-- C1: for every UserConfig whose numeric fields lie in their validated
ranges, into_converter_config returns an EngineConfig whose
filter_speckle_area is the square of the speckle filter size, whose
color_precision_loss is 8 minus the color precision bits, and whose corner
and splice thresholds are the degree values multiplied by pi / 180. -/
theorem into_converter_config_transforms (c : Config) (_h : validRanges c) :
    (c.into_converter_config).filter_speckle_area = c.filter_speckle ^ 2 ∧
    (c.into_converter_config).color_precision_loss = 8 - c.color_precision ∧
    (c.into_converter_config).corner_threshold
      = (c.corner_threshold : ℝ) * (Real.pi / 180) ∧
    (c.into_converter_config).splice_threshold
      = (c.splice_threshold : ℝ) * (Real.pi / 180) := by
  refine ⟨?_, rfl, ?_, ?_⟩
  · show c.filter_speckle * c.filter_speckle = c.filter_speckle ^ 2
    ring
  · show deg2rad c.corner_threshold = _
    unfold deg2rad
    ring
  · show deg2rad c.splice_threshold = _
    unfold deg2rad
    ring

/-- Witness for C1 at the default configuration, whose fields are all in
range. -/
theorem into_converter_config_transforms_witness :
    validRanges Config.default ∧
    ((Config.default).into_converter_config).filter_speckle_area
      = (Config.default).filter_speckle ^ 2 :=
  ⟨by decide, (into_converter_config_transforms Config.default (by decide)).1⟩

/-- C2: selecting a preset replaces the whole working configuration with the
preset's fixed bundle (from_args returns exactly from_preset's bundle, never
a merge with the defaults), and the three bundles carry exactly the tabled
values. -/
theorem from_preset_bundles (i o : String) :
    Config.from_args { Args.empty with
        input := some i, output := some o, preset := some "bw" }
      = Except.ok (Config.from_preset Preset.Bw i o) ∧
    Config.from_args { Args.empty with
        input := some i, output := some o, preset := some "poster" }
      = Except.ok (Config.from_preset Preset.Poster i o) ∧
    Config.from_args { Args.empty with
        input := some i, output := some o, preset := some "photo" }
      = Except.ok (Config.from_preset Preset.Photo i o) ∧
    (Config.from_preset Preset.Bw i o).color_mode = ColorMode.Binary ∧
    (Config.from_preset Preset.Bw i o).filter_speckle = 4 ∧
    (Config.from_preset Preset.Bw i o).color_precision = 6 ∧
    (Config.from_preset Preset.Bw i o).layer_difference = 16 ∧
    (Config.from_preset Preset.Bw i o).corner_threshold = 60 ∧
    (Config.from_preset Preset.Bw i o).length_threshold = 4 ∧
    (Config.from_preset Preset.Bw i o).splice_threshold = 45 ∧
    (Config.from_preset Preset.Poster i o).color_mode = ColorMode.Color ∧
    (Config.from_preset Preset.Poster i o).filter_speckle = 4 ∧
    (Config.from_preset Preset.Poster i o).color_precision = 8 ∧
    (Config.from_preset Preset.Poster i o).layer_difference = 16 ∧
    (Config.from_preset Preset.Poster i o).corner_threshold = 60 ∧
    (Config.from_preset Preset.Poster i o).length_threshold = 4 ∧
    (Config.from_preset Preset.Poster i o).splice_threshold = 45 ∧
    (Config.from_preset Preset.Photo i o).color_mode = ColorMode.Color ∧
    (Config.from_preset Preset.Photo i o).filter_speckle = 10 ∧
    (Config.from_preset Preset.Photo i o).color_precision = 8 ∧
    (Config.from_preset Preset.Photo i o).layer_difference = 48 ∧
    (Config.from_preset Preset.Photo i o).corner_threshold = 180 ∧
    (Config.from_preset Preset.Photo i o).length_threshold = 4 ∧
    (Config.from_preset Preset.Photo i o).splice_threshold = 45 :=
  ⟨rfl, rfl, rfl, rfl, rfl, rfl, rfl, rfl, rfl, rfl, rfl, rfl, rfl, rfl, rfl,
   rfl, rfl, rfl, rfl, rfl, rfl, rfl, rfl, rfl⟩

/-- C3: an explicit color_precision override supplied together with preset
photo wins over the preset: the built config carries the override value and
the derived color_precision_loss is 8 minus the override, not the preset's
own precision. -/
theorem override_wins_over_preset (i o s : String) (v : Int)
    (hp : parseI32 (rustTrim s) = some v) (h1 : 1 ≤ v) (h8 : v ≤ 8) :
    Config.from_args { Args.empty with
        input := some i, output := some o,
        preset := some "photo", color_precision := some s }
      = Except.ok { Config.from_preset Preset.Photo i o with
          color_precision := v } ∧
    ({ Config.from_preset Preset.Photo i o with
        color_precision := v } : Config).color_precision = v ∧
    (({ Config.from_preset Preset.Photo i o with
        color_precision := v } : Config).into_converter_config).color_precision_loss
      = 8 - v := by
  refine ⟨?_, rfl, rfl⟩
  simp only [Config.from_args, applyPreset, applyColorMode, applyHierarchical,
    applyMode, applyFilterSpeckle, applyColorPrecision, applyGradientStep,
    applyCornerThreshold, applySegmentLength, applySpliceThreshold,
    applyPathPrecision, Args.empty, Except.bind, presetFromStr_photo, hp]
  rw [if_neg (by omega : ¬(v < 1 ∨ v > 8))]
  rfl

/-- Witness for C3: preset photo overridden with color_precision 3. -/
theorem override_wins_over_preset_witness :
    parseI32 (rustTrim "3") = some 3 ∧
    Config.from_args { Args.empty with
        input := some "in.png", output := some "out.svg",
        preset := some "photo", color_precision := some "3" }
      = Except.ok { Config.from_preset Preset.Photo "in.png" "out.svg" with
          color_precision := 3 } :=
  ⟨by decide,
   (override_wins_over_preset "in.png" "out.svg" "3" 3
     (by decide) (by decide) (by decide)).1⟩

/-- C4: for every numeric tracing field both documented boundary values are
accepted and stored, and values immediately outside the boundaries (samples
below 3.5 and above 10.0 for the float field) are rejected. -/
theorem boundary_acceptance_rejection :
    (Config.from_args { argsBase with filter_speckle := some "1" }).toOption.map
      Config.filter_speckle = some 1 ∧
    (Config.from_args { argsBase with filter_speckle := some "16" }).toOption.map
      Config.filter_speckle = some 16 ∧
    (Config.from_args { argsBase with filter_speckle := some "0" }).toOption
      = none ∧
    (Config.from_args { argsBase with filter_speckle := some "17" }).toOption
      = none ∧
    (Config.from_args { argsBase with color_precision := some "1" }).toOption.map
      Config.color_precision = some 1 ∧
    (Config.from_args { argsBase with color_precision := some "8" }).toOption.map
      Config.color_precision = some 8 ∧
    (Config.from_args { argsBase with color_precision := some "0" }).toOption
      = none ∧
    (Config.from_args { argsBase with color_precision := some "9" }).toOption
      = none ∧
    (Config.from_args { argsBase with gradient_step := some "0" }).toOption.map
      Config.layer_difference = some 0 ∧
    (Config.from_args { argsBase with gradient_step := some "255" }).toOption.map
      Config.layer_difference = some 255 ∧
    (Config.from_args { argsBase with gradient_step := some "256" }).toOption
      = none ∧
    (Config.from_args { argsBase with corner_threshold := some "0" }).toOption.map
      Config.corner_threshold = some 0 ∧
    (Config.from_args { argsBase with corner_threshold := some "180" }).toOption.map
      Config.corner_threshold = some 180 ∧
    (Config.from_args { argsBase with corner_threshold := some "181" }).toOption
      = none ∧
    (Config.from_args { argsBase with splice_threshold := some "0" }).toOption.map
      Config.splice_threshold = some 0 ∧
    (Config.from_args { argsBase with splice_threshold := some "180" }).toOption.map
      Config.splice_threshold = some 180 ∧
    (Config.from_args { argsBase with splice_threshold := some "181" }).toOption
      = none ∧
    (Config.from_args { argsBase with segment_length := some "3.5" }).toOption.map
      Config.length_threshold = some ((35 : ℚ) / 10) ∧
    (Config.from_args { argsBase with segment_length := some "10.0" }).toOption.map
      Config.length_threshold = some 10 ∧
    (Config.from_args { argsBase with segment_length := some "3.4" }).toOption
      = none ∧
    (Config.from_args { argsBase with segment_length := some "3.49" }).toOption
      = none ∧
    (Config.from_args { argsBase with segment_length := some "10.1" }).toOption
      = none ∧
    (Config.from_args { argsBase with segment_length := some "10.5" }).toOption
      = none :=
  ⟨rfl, rfl, rfl, rfl, rfl, rfl, rfl, rfl, rfl, rfl, rfl, rfl,
   rfl, rfl, rfl, rfl, rfl, rfl, rfl, rfl, rfl, rfl, rfl⟩

/-- C5 counterexample: the mixed-case tokens "Bw" and "bW" do NOT map to
Binary as the claim states; the code maps them to Color. -/
theorem colormode_mixed_case_counterexample :
    (Config.from_args { argsBase with color_mode := some "Bw" }).toOption.map
      Config.color_mode = some ColorMode.Color ∧
    (Config.from_args { argsBase with color_mode := some "bW" }).toOption.map
      Config.color_mode = some ColorMode.Color ∧
    ColorMode.Color ≠ ColorMode.Binary :=
  ⟨rfl, rfl, by decide⟩

/-- C5 amended: only a color-mode token that trims to exactly "bw" or "BW"
maps to Binary; every other token (including mixed-case variants) maps to
Color, and no token is ever rejected. -/
theorem colormode_token_mapping (i o s : String) :
    Config.from_args { Args.empty with
        input := some i, output := some o, color_mode := some s }
      = Except.ok { Config.default with
          input_path := i
          output_path := o
          color_mode := if rustTrim s = "bw" ∨ rustTrim s = "BW"
            then ColorMode.Binary else ColorMode.Color } := by
  by_cases h : rustTrim s = "bw" ∨ rustTrim s = "BW" <;>
    simp only [Config.from_args, applyPreset, applyColorMode, applyHierarchical,
      applyMode, applyFilterSpeckle, applyColorPrecision, applyGradientStep,
      applyCornerThreshold, applySegmentLength, applySpliceThreshold,
      applyPathPrecision, Args.empty, Except.bind, if_pos, if_neg, h,
      if_true, if_false, cmFromStr_binary, cmFromStr_color, ite_true,
      ite_false]

/-- C6 counterexample: the path-simplify-mode token "SPLINE" (and "Spline")
is rejected, not accepted case-insensitively as the claim states. -/
theorem mode_token_uppercase_counterexample :
    Config.from_args { argsBase with mode := some "SPLINE" }
      = Except.error "Parser Error: Curve fitting mode is invalid: SPLINE" ∧
    Config.from_args { argsBase with mode := some "Spline" }
      = Except.error "Parser Error: Curve fitting mode is invalid: Spline" :=
  ⟨rfl, rfl⟩

/-- C6 amended: hierarchical tokens are parsed case-insensitively against the
variant names ("Stacked" and "CUTOUT" accepted, the result of any token
agrees with the result of its lowercased form); the path-simplify-mode token
is matched case-sensitively against "pixel" / "polygon" / "spline" with
"pixel" an alias for None; unrecognized tokens for either field are
rejected. -/
theorem enum_token_parsing (i o s m : String)
    (hs : asciiLower s ≠ "stacked") (hc : asciiLower s ≠ "cutout")
    (hm1 : rustTrim m ≠ "pixel") (hm2 : rustTrim m ≠ "polygon")
    (hm3 : rustTrim m ≠ "spline") :
    (Config.from_args { Args.empty with
        input := some i, output := some o,
        hierarchical := some "Stacked" }).toOption.map Config.hierarchical
      = some Hierarchical.Stacked ∧
    (Config.from_args { Args.empty with
        input := some i, output := some o,
        hierarchical := some "CUTOUT" }).toOption.map Config.hierarchical
      = some Hierarchical.Cutout ∧
    (∀ t, (Config.from_args { Args.empty with
        input := some i, output := some o,
        hierarchical := some t }).toOption
      = (Config.from_args { Args.empty with
        input := some i, output := some o,
        hierarchical := some (asciiLower t) }).toOption) ∧
    Config.from_args { Args.empty with
        input := some i, output := some o, hierarchical := some s }
      = Except.error ("unknown Hierarchical " ++ s) ∧
    (Config.from_args { Args.empty with
        input := some i, output := some o,
        mode := some "pixel" }).toOption.map Config.mode
      = some PathSimplifyMode.None ∧
    (Config.from_args { Args.empty with
        input := some i, output := some o,
        mode := some "SPLINE" }).toOption = none ∧
    Config.from_args { Args.empty with
        input := some i, output := some o, mode := some m }
      = Except.error
          ("Parser Error: Curve fitting mode is invalid: " ++ rustTrim m) := by
  refine ⟨rfl, rfl, ?_, ?_, rfl, rfl, ?_⟩
  · intro t
    rw [hier_eval, hier_eval]
    have h := hierFromStr_toOption_lower t
    cases hl : Hierarchical.fromStr t with
    | ok hv =>
      rw [hl] at h
      cases hr : Hierarchical.fromStr (asciiLower t) with
      | ok hv2 =>
        rw [hr] at h
        simp only [Except.toOption] at h
        cases h
        rfl
      | error e =>
        rw [hr] at h
        simp [Except.toOption] at h
    | error e =>
      rw [hl] at h
      cases hr : Hierarchical.fromStr (asciiLower t) with
      | ok hv2 =>
        rw [hr] at h
        simp [Except.toOption] at h
      | error e2 => rfl
  · rw [hier_eval]
    unfold Hierarchical.fromStr
    rw [if_neg hs, if_neg hc]
  · rw [mode_eval]
    rw [if_neg hm1, if_neg hm2, if_neg hm3]

/-- Witness for C6 at the unrecognized tokens "sideways" and "quux". -/
theorem enum_token_parsing_witness :
    Config.from_args { Args.empty with
        input := some "in.png", output := some "out.svg",
        hierarchical := some "sideways" }
      = Except.error ("unknown Hierarchical " ++ "sideways") :=
  (enum_token_parsing "in.png" "out.svg" "sideways" "quux"
    (by decide) (by decide) (by decide) (by decide) (by decide)).2.2.2.1

/-- C7: evaluating the code at an out-of-range and at a non-numeric
splice_threshold shows the panic message naming "Segment length", not the
splice-threshold field; the corner-threshold message, by contrast, names its
own field. -/
theorem splice_threshold_error_message :
    Config.from_args { argsBase with splice_threshold := some "181" }
      = Except.error
        "Out of Range Error: Segment length is invalid at 181. It must be within [0,180]." ∧
    Config.from_args { argsBase with splice_threshold := some "foo" }
      = Except.error "Parser Error: Segment length is not numeric: foo." ∧
    Config.from_args { argsBase with corner_threshold := some "181" }
      = Except.error
        "Out of Range Error: Corner threshold is invalid at 181. It must be within [0,180]." :=
  ⟨rfl, rfl, rfl⟩

/-- C8: into_converter_config copies the paths, the three mode fields, the
gradient/layer step, the segment length and the optional path precision into
the engine config unchanged. -/
theorem into_converter_config_copies (c : Config) :
    (c.into_converter_config).input_path = c.input_path ∧
    (c.into_converter_config).output_path = c.output_path ∧
    (c.into_converter_config).color_mode = c.color_mode ∧
    (c.into_converter_config).hierarchical = c.hierarchical ∧
    (c.into_converter_config).mode = c.mode ∧
    (c.into_converter_config).layer_difference = c.layer_difference ∧
    (c.into_converter_config).length_threshold = c.length_threshold ∧
    (c.into_converter_config).path_precision = c.path_precision :=
  ⟨rfl, rfl, rfl, rfl, rfl, rfl, rfl, rfl⟩

/-- C9: the configuration's max_iterations field, settable by no recognized
input key, equals 10 in the default configuration and in every preset
bundle, is copied unchanged by the derivation, and therefore every
EngineConfig produced through from_args has max_iterations = 10. -/
theorem max_iterations_always_ten :
    Config.default.max_iterations = 10 ∧
    (∀ p i o, (Config.from_preset p i o).max_iterations = 10) ∧
    (∀ c : Config, (c.into_converter_config).max_iterations
      = c.max_iterations) ∧
    (∀ a c, Config.from_args a = Except.ok c →
      (c.into_converter_config).max_iterations = 10) := by
  refine ⟨rfl, ?_, fun c => rfl, ?_⟩
  · intro p i o
    cases p <;> rfl
  · intro a c h
    unfold Config.from_args at h
    cases hi : a.input with
    | none => simp only [hi] at h; exact Except.noConfusion h
    | some input =>
      simp only [hi] at h
      cases ho : a.output with
      | none => simp only [ho] at h; exact Except.noConfusion h
      | some output =>
        simp only [ho] at h
        obtain ⟨c0, h0, h⟩ := bind_eq_ok h
        obtain ⟨c2, h2, h⟩ := bind_eq_ok h
        obtain ⟨c3, h3, h⟩ := bind_eq_ok h
        obtain ⟨c4, h4, h⟩ := bind_eq_ok h
        obtain ⟨c5, h5, h⟩ := bind_eq_ok h
        obtain ⟨c6, h6, h⟩ := bind_eq_ok h
        obtain ⟨c7, h7, h⟩ := bind_eq_ok h
        obtain ⟨c8, h8, h⟩ := bind_eq_ok h
        obtain ⟨c9, h9, h⟩ := bind_eq_ok h
        obtain ⟨c10, h10, h⟩ := bind_eq_ok h
        have m0 : c0.max_iterations = 10 := applyPreset_max h0 rfl
        have m2 : c2.max_iterations = 10 := (applyColorMode_max h2).trans m0
        have m3 : c3.max_iterations = 10 := (applyHierarchical_max h3).trans m2
        have m4 : c4.max_iterations = 10 := (applyMode_max h4).trans m3
        have m5 : c5.max_iterations = 10 :=
          (applyFilterSpeckle_max h5).trans m4
        have m6 : c6.max_iterations = 10 :=
          (applyColorPrecision_max h6).trans m5
        have m7 : c7.max_iterations = 10 := (applyGradientStep_max h7).trans m6
        have m8 : c8.max_iterations = 10 :=
          (applyCornerThreshold_max h8).trans m7
        have m9 : c9.max_iterations = 10 :=
          (applySegmentLength_max h9).trans m8
        have m10 : c10.max_iterations = 10 :=
          (applySpliceThreshold_max h10).trans m9
        have mc : c.max_iterations = 10 :=
          (applyPathPrecision_max h).trans m10
        exact mc


/-- Witness for C9 at an invocation carrying only the two paths. -/
theorem max_iterations_always_ten_witness :
    (({ Config.default with input_path := "in.png", output_path := "out.svg" }
      : Config).into_converter_config).max_iterations = 10 :=
  max_iterations_always_ten.2.2.2 argsBase _ rfl

/-- C10: preset token parsing is case-sensitive and exact: only the literal
strings "bw", "poster" and "photo" select a preset, and any other token,
case variants included, is rejected with the unknown-preset error. -/
theorem preset_tokens_case_sensitive (s : String)
    (h1 : s ≠ "bw") (h2 : s ≠ "poster") (h3 : s ≠ "photo") :
    Preset.fromStr "bw" = Except.ok Preset.Bw ∧
    Preset.fromStr "poster" = Except.ok Preset.Poster ∧
    Preset.fromStr "photo" = Except.ok Preset.Photo ∧
    Preset.fromStr s = Except.error ("unknown Preset " ++ s) ∧
    (∀ i o, Config.from_args { Args.empty with
        input := some i, output := some o, preset := some s }
      = Except.error ("unknown Preset " ++ s)) := by
  refine ⟨rfl, rfl, rfl, ?_, ?_⟩
  · unfold Preset.fromStr
    rw [if_neg h1, if_neg h2, if_neg h3]
  · intro i o
    unfold Config.from_args applyPreset
    simp only [Preset.fromStr, if_neg h1, if_neg h2, if_neg h3]
    rfl

/-- Witness for C10 at the uppercase token "BW". -/
theorem preset_tokens_case_sensitive_witness :
    Preset.fromStr "BW" = Except.error ("unknown Preset " ++ "BW") :=
  (preset_tokens_case_sensitive "BW" (by decide) (by decide) (by decide)).2.2.2.1
